import Mathlib

/-!
Shallow embedding of the auth-service token lifecycle subsystem
(`app/services/jwt_service.py`, `app/services/auth_service.py`,
`app/routers/auth.py`, `app/config.py`).

Timestamps are `Nat` seconds.  A signed JWT is modelled as its payload
together with the key and algorithm it was signed with; signature
verification in `jose.jwt.decode` is then equality of key/algorithm.
The Redis store is a list of (key, value, ttl) entries with unique keys.
Store communication failures (`except Exception` branches in the source)
are modelled by a `conn : Bool` flag: `conn = false` makes every store
call take the exception branch.
-/

namespace Auth

/-- The JWT-relevant fields of `Settings` in `app/config.py` with their
default values. -/
structure Settings where
  jwt_secret_key : String
  jwt_algorithm : String
  access_token_expire_minutes : Nat
  refresh_token_expire_minutes : Nat
deriving DecidableEq

/-- `settings` singleton from `app/config.py` (defaults). -/
def settings : Settings :=
  ⟨"your-secret-key-change-this-in-production", "HS256", 15, 10080⟩

/-- The payload dict built by `create_access_token` / `create_refresh_token`
and read back by the decoders.  `typ` is the `"type"` claim (a Lean
keyword); optional fields are `Option` since `payload.get` may miss. -/
structure JwtPayload where
  sub : Option String
  email : Option String
  is_admin : Option Bool
  typ : Option String
  exp : Nat
  iat : Nat
deriving DecidableEq

/-- A signed token: `jose.jwt.encode(payload, key, algorithm)`.  The key
and algorithm are carried so that `decode` can check the signature. -/
structure Jwt where
  payload : JwtPayload
  key : String
  alg : String
deriving DecidableEq

/-- `jose.jwt.decode(token, key, algorithms)` at wall-clock `now`:
returns the payload when the signature verifies (same key, allowed
algorithm) and the embedded expiry has not passed, otherwise raises
`JWTError` (modelled as `none`). -/
def jwtDecode (token : Jwt) (key : String) (algs : List String) (now : Nat) :
    Option JwtPayload :=
  if token.key = key ∧ token.alg ∈ algs ∧ now < token.payload.exp then
    some token.payload
  else
    none

/-- `TokenData` from `app/schemas/token.py`. -/
structure TokenData where
  user_id : Option Int
  email : Option String
  is_admin : Bool
  token_type : Option String
deriving DecidableEq

/-- `create_access_token` (jwt_service.py:16).  `expires_delta` in
seconds; `none` means the default `settings.access_token_expire_minutes`. -/
def create_access_token (user_id : Int) (email : String) (is_admin : Bool)
    (now : Nat) (expires_delta : Option Nat) : Jwt :=
  let expire := now + expires_delta.getD (settings.access_token_expire_minutes * 60)
  ⟨⟨some (toString user_id), some email, some is_admin, some "access", expire, now⟩,
    settings.jwt_secret_key, settings.jwt_algorithm⟩

/-- `create_refresh_token` (jwt_service.py:37). -/
def create_refresh_token (user_id : Int) (now : Nat)
    (expires_delta : Option Nat) : Jwt :=
  let expire := now + expires_delta.getD (settings.refresh_token_expire_minutes * 60)
  ⟨⟨some (toString user_id), none, none, some "refresh", expire, now⟩,
    settings.jwt_secret_key, settings.jwt_algorithm⟩

/-- Digit-list accumulator for `parseInt`. -/
def parseNatDigits : List Char → Nat → Option Nat
  | [], acc => some acc
  | c :: cs, acc =>
    if c.isDigit then parseNatDigits cs (acc * 10 + (c.toNat - '0'.toNat))
    else none

/-- Model of Python's `int(str)` on the strings this service produces
(`str(user_id)` for an integer id): an optional sign followed by
decimal digits; anything else raises `ValueError` (`none`). -/
def parseInt (s : String) : Option Int :=
  match s.data with
  | [] => none
  | '-' :: [] => none
  | '-' :: c :: cs => (parseNatDigits (c :: cs) 0).map (fun n => -(n : Int))
  | c :: cs => (parseNatDigits (c :: cs) 0).map (fun n => (n : Int))

/-- `decode_access_token` (jwt_service.py:55): decode, require an
int-parseable `sub`, require `payload.get("type", "access") == "access"`
(a missing kind claim defaults to `"access"`), build `TokenData`. -/
def decode_access_token (token : Jwt) (now : Nat) : Option TokenData :=
  match jwtDecode token settings.jwt_secret_key [settings.jwt_algorithm] now with
  | none => none
  | some payload =>
    match payload.sub with
    | none => none
    | some user_id_str =>
      match parseInt user_id_str with
      | none => none
      | some user_id =>
        if payload.typ.getD "access" ≠ "access" then none
        else some ⟨some user_id, payload.email, payload.is_admin.getD false, some "access"⟩

/-- `decode_refresh_token` (jwt_service.py:82): decode, require `sub`
present and `payload.get("type") == "refresh"` (the kind claim must be
explicitly present), return the int-parsed subject. -/
def decode_refresh_token (token : Jwt) (now : Nat) : Option Int :=
  match jwtDecode token settings.jwt_secret_key [settings.jwt_algorithm] now with
  | none => none
  | some payload =>
    match payload.sub with
    | none => none
    | some user_id_str =>
      if payload.typ ≠ some "refresh" then none
      else parseInt user_id_str

/-! ## Redis revocation store -/

/-- One Redis key with its value and the TTL (seconds) it was set with. -/
structure RedisEntry where
  key : String
  value : String
  ttl : Nat
deriving DecidableEq

/-- The Redis database: keys are unique (`setex` overwrites). -/
abbrev RedisStore := List RedisEntry

/-- `redis_client.setex(key, ttl, value)`: set with expiry, overwriting. -/
def redisSetex (st : RedisStore) (key : String) (ttl : Nat) (value : String) :
    RedisStore :=
  ⟨key, value, ttl⟩ :: st.filter (fun e => e.key ≠ key)

/-- `redis_client.exists(key)`: number of the given keys that exist. -/
def redisExists (st : RedisStore) (key : String) : Nat :=
  if st.any (fun e => e.key = key) then 1 else 0

/-- `redis_client.get(key)`. -/
def redisGet (st : RedisStore) (key : String) : Option String :=
  (st.find? (fun e => e.key = key)).map (fun e => e.value)

/-- `redis_client.delete(key)`: idempotent removal. -/
def redisDelete (st : RedisStore) (key : String) : RedisStore :=
  st.filter (fun e => e.key ≠ key)

/-- `REFRESH_TOKEN_PREFIX` (jwt_service.py:97). -/
def REFRESH_TOKEN_NS : String := "refresh_token:"

/-- `_get_token_key` (jwt_service.py:100).  `sha256hex` abstracts
`hashlib.sha256(token.encode()).hexdigest()` — the lowercase hex SHA-256
fingerprint of the serialized token string; it is a parameter because
tokens are modelled as structured values rather than wire strings. -/
def get_token_key (sha256hex : Jwt → String) (token : Jwt) : String :=
  REFRESH_TOKEN_NS ++ sha256hex token

/-- `store_refresh_token` (jwt_service.py:106): register the token's
fingerprint with the owner id and the refresh TTL; any store failure
(`conn = false`) returns `False` instead of raising. -/
def store_refresh_token (sha256hex : Jwt → String) (conn : Bool)
    (st : RedisStore) (token : Jwt) (user_id : Int) : Bool × RedisStore :=
  if conn then
    let key := get_token_key sha256hex token
    let expiration_seconds := settings.refresh_token_expire_minutes * 60
    (true, redisSetex st key expiration_seconds (toString user_id))
  else
    (false, st)

/-- `is_refresh_token_valid` (jwt_service.py:117): `exists(key) == 1`;
a store failure returns `False`. -/
def is_refresh_token_valid (sha256hex : Jwt → String) (conn : Bool)
    (st : RedisStore) (token : Jwt) : Bool :=
  if conn then redisExists st (get_token_key sha256hex token) == 1 else false

/-- `revoke_refresh_token` (jwt_service.py:125): delete the fingerprint
key; a store failure returns `False` without modifying anything. -/
def revoke_refresh_token (sha256hex : Jwt → String) (conn : Bool)
    (st : RedisStore) (token : Jwt) : Bool × RedisStore :=
  if conn then (true, redisDelete st (get_token_key sha256hex token))
  else (false, st)

/-- The scan-and-delete loop body of `revoke_all_user_tokens`
(jwt_service.py:139): walk every key in the `refresh_token:` namespace
and delete those whose stored value equals `str(user_id)` (keys are
unique, so the value read back by `get` is the entry's own value),
counting deletions. -/
def revokeAllGo (user_id : Int) : RedisStore → Nat × RedisStore
  | [] => (0, [])
  | e :: rest =>
    let r := revokeAllGo user_id rest
    if REFRESH_TOKEN_NS.data.isPrefixOf e.key.data && e.value == toString user_id then
      (r.1 + 1, r.2)
    else
      (r.1, e :: r.2)

/-- `revoke_all_user_tokens` (jwt_service.py:134): scan/delete all of a
user's refresh-token entries, returning the count; a store failure
returns `0`. -/
def revoke_all_user_tokens (conn : Bool) (st : RedisStore) (user_id : Int) :
    Nat × RedisStore :=
  if conn then revokeAllGo user_id st else (0, st)

/-! ## User directory and credential verification (`auth_service.py`) -/

/-- The claim-relevant fields of the `User` ORM model
(`app/models/user.py`). -/
structure User where
  id : Int
  email : String
  password_hash : String
  is_admin : Bool
  is_active : Bool
deriving DecidableEq

/-- `get_user_by_id` (auth_service.py:35). -/
def get_user_by_id (db : List User) (user_id : Int) : Option User :=
  db.find? (fun u => u.id = user_id)

/-- `get_user_by_email` (auth_service.py:30); `authenticate_user` runs
the same email query inline. -/
def get_user_by_email (db : List User) (email : String) : Option User :=
  db.find? (fun u => u.email = email)

/-- Outcome of `authenticate_user`: the user, or a raised
`AuthenticationError` carrying its message. -/
inductive AuthResult where
  | ok (user : User)
  | authenticationError (detail : String)
deriving DecidableEq

/-- `authenticate_user` (auth_service.py:66).  `verify` abstracts
`verify_password` from `app/utils/password.py` (bcrypt check of the
plaintext against the stored hash).  The `last_login_at` timestamp
update on success is a user-directory side effect and is elided. -/
def authenticate_user (verify : String → String → Bool) (db : List User)
    (email password : String) : AuthResult :=
  match get_user_by_email db email with
  | none => .authenticationError "Invalid email or password"
  | some user =>
    if ¬ verify password user.password_hash then
      .authenticationError "Invalid email or password"
    else if ¬ user.is_active then
      .authenticationError "Account is deactivated"
    else
      .ok user

/-! ## Router endpoints (`app/routers/auth.py`) -/

/-- `_create_tokens` (auth.py:64): mint both tokens, register the
refresh token's fingerprint (result ignored), return the pair. -/
def create_tokens (sha256hex : Jwt → String) (conn : Bool)
    (st : RedisStore) (user : User) (now : Nat) : (Jwt × Jwt) × RedisStore :=
  let access_token := create_access_token user.id user.email user.is_admin now none
  let rt := create_refresh_token user.id now none
  let r := store_refresh_token sha256hex conn st rt user.id
  ((access_token, rt), r.2)

/-- Response of the `/login` endpoint: `AuthResponse` on success, or an
`HTTPException` with status code and detail. -/
inductive LoginResponse where
  | success (user : User) (access_token : Jwt) (rt : Jwt)
  | httpError (statusCode : Nat) (detail : String)
deriving DecidableEq

/-- `login` endpoint (auth.py:126): authenticate, map
`AuthenticationError` to HTTP 401 with the exception's own message
(`detail=str(e)`), otherwise mint and return both tokens. -/
def login (verify : String → String → Bool) (sha256hex : Jwt → String)
    (conn : Bool) (st : RedisStore) (db : List User)
    (email password : String) (now : Nat) : LoginResponse × RedisStore :=
  match authenticate_user verify db email password with
  | .authenticationError e => (.httpError 401 e, st)
  | .ok user =>
    let r := create_tokens sha256hex conn st user now
    (.success user r.1.1 r.1.2, r.2)

/-- Response of the `/refresh` endpoint: a fresh access token with
`expires_in` seconds, or an `HTTPException`. -/
inductive RefreshResult where
  | token (access_token : Jwt) (expires_in : Nat)
  | httpError (statusCode : Nat) (detail : String)
deriving DecidableEq

/-- `refresh_token` endpoint (auth.py:193): decode → 401; revocation
check → 401; user lookup → 401; inactive → 403; else mint a new access
token only. -/
def refresh_token (sha256hex : Jwt → String) (conn : Bool)
    (st : RedisStore) (db : List User) (tok : Jwt) (now : Nat) :
    RefreshResult × RedisStore :=
  match decode_refresh_token tok now with
  | none => (.httpError 401 "Invalid or expired refresh token", st)
  | some user_id =>
    if ¬ is_refresh_token_valid sha256hex conn st tok then
      (.httpError 401 "Refresh token has been revoked", st)
    else
      match get_user_by_id db user_id with
      | none => (.httpError 401 "User not found", st)
      | some user =>
        if ¬ user.is_active then
          (.httpError 403 "Account is deactivated", st)
        else
          (.token (create_access_token user.id user.email user.is_admin now none)
            (settings.access_token_expire_minutes * 60), st)

/-- Response of the `/logout` endpoint. -/
inductive LogoutResult where
  | message (msg : String)
  | httpError (statusCode : Nat) (detail : String)
deriving DecidableEq

/-- `logout` endpoint (auth.py:260): decode the refresh token, require
its subject to equal the authenticated user's id (else HTTP 400), then
revoke its fingerprint key. -/
def logout (sha256hex : Jwt → String) (conn : Bool) (st : RedisStore)
    (current_user : User) (tok : Jwt) (now : Nat) :
    LogoutResult × RedisStore :=
  match decode_refresh_token tok now with
  | none => (.httpError 400 "Invalid refresh token", st)
  | some user_id =>
    if user_id ≠ current_user.id then
      (.httpError 400 "Invalid refresh token", st)
    else
      let r := revoke_refresh_token sha256hex conn st tok
      (.message "Successfully logged out", r.2)

/-! ## Derived predicates and concrete fixtures -/

/-- Whether the `/refresh` endpoint succeeded (returned a new access
token). -/
def refreshSucceeds (sha256hex : Jwt → String) (conn : Bool)
    (st : RedisStore) (db : List User) (tok : Jwt) (now : Nat) : Bool :=
  match (refresh_token sha256hex conn st db tok now).1 with
  | .token _ _ => true
  | .httpError _ _ => false

/-- The spec's usability condition (b), stated from the spec's words for
comparison with the code: the token's fingerprint exists in the
revocation store as an entry owned by the same user id encoded in the
token's claims. -/
def specFingerprintOwned (sha256hex : Jwt → String) (st : RedisStore)
    (tok : Jwt) (now : Nat) : Bool :=
  match decode_refresh_token tok now with
  | some uid => redisGet st (get_token_key sha256hex tok) == some (toString uid)
  | none => false

/-- A revocation-store entry in the refresh-token namespace belonging to
`user_id`: exactly the entries `revoke_all_user_tokens` deletes. -/
def ownedBy (user_id : Int) (e : RedisEntry) : Bool :=
  REFRESH_TOKEN_NS.data.isPrefixOf e.key.data && e.value == toString user_id

/-- A concrete fingerprint function for fixtures. -/
def sha0 : Jwt → String := fun _ => "fp"

/-- A refresh token for user 1 minted at time 0 with the default TTL. -/
def tok1 : Jwt := create_refresh_token 1 0 none

/-- Store holding `tok1`'s fingerprint owned by user 1. -/
def stOwned : RedisStore := [⟨"refresh_token:fp", "1", 604800⟩]

/-- Store holding `tok1`'s fingerprint but owned by user 2. -/
def stWrongOwner : RedisStore := [⟨"refresh_token:fp", "2", 604800⟩]

/-- User directory where user 1 is deactivated. -/
def dbInactive : List User := [⟨1, "a@x.com", "h", false, false⟩]

/-- User directory where user 1 is active. -/
def dbActive : List User := [⟨1, "a@x.com", "h", false, true⟩]

/-- A password verifier that accepts everything (fixture). -/
def verifyAny : String → String → Bool := fun _ _ => true

/-- `revokeAllGo` deletes exactly the entries `ownedBy user_id` and
counts them. -/
theorem revokeAllGo_eq (user_id : Int) (st : RedisStore) :
    revokeAllGo user_id st =
      ((st.filter (ownedBy user_id)).length,
        st.filter (fun e => ! ownedBy user_id e)) := by
  induction st with
  | nil => rfl
  | cons e rest ih =>
    simp only [revokeAllGo, ih, List.filter]
    cases h : (REFRESH_TOKEN_NS.data.isPrefixOf e.key.data && e.value == toString user_id) with
    | true => simp [ownedBy, h]
    | false => simp [ownedBy, h]

/-- A store with two entries owned by user 1 and one owned by user 2. -/
def stMixed : RedisStore :=
  [⟨"refresh_token:a", "1", 5⟩, ⟨"refresh_token:b", "1", 5⟩,
    ⟨"refresh_token:z", "2", 5⟩]

/-- A signed, unexpired token whose payload has an int-parseable `sub`
but no `"type"` claim at all. -/
def tokNoKind : Jwt :=
  ⟨⟨some "7", none, none, none, 100, 0⟩,
    settings.jwt_secret_key, settings.jwt_algorithm⟩

/-- C6: a token minted by `create_access_token` is never accepted by
`decode_refresh_token`, and a token minted by `create_refresh_token` is
never accepted by `decode_access_token` — kind confusion is rejected at
every decode time. -/
theorem mint_decode_kind_confusion (uid : Int) (email : String) (adm : Bool)
    (now : Nat) (d : Option Nat) (now2 : Nat) (uid2 : Int) (now3 : Nat)
    (d2 : Option Nat) (now4 : Nat) :
    decode_refresh_token (create_access_token uid email adm now d) now2 = none ∧
    decode_access_token (create_refresh_token uid2 now3 d2) now4 = none := by
  constructor
  · by_cases hc : now2 < now + d.getD (settings.access_token_expire_minutes * 60) <;>
      simp [decode_refresh_token, create_access_token, jwtDecode, hc]
  · by_cases hc : now4 < now3 + d2.getD (settings.refresh_token_expire_minutes * 60) <;>
      simp [decode_access_token, create_refresh_token, jwtDecode, hc]
    cases h : parseInt (toString uid2) <;> simp [h]

/-- C7: `store_refresh_token` writes exactly the key
`"refresh_token:" ++ fingerprint(token)` mapped to the owner's id with
expiry equal to the refresh-token TTL (the same TTL that sets the
token's own `exp` claim), overwriting any entry at that key; the value
read back under the token's key is the user id, never the token. -/
theorem store_refresh_token_registers (sha256hex : Jwt → String)
    (st : RedisStore) (tok : Jwt) (uid : Int) (now : Nat) :
    store_refresh_token sha256hex true st tok uid =
      (true, ⟨REFRESH_TOKEN_NS ++ sha256hex tok, toString uid,
          settings.refresh_token_expire_minutes * 60⟩ ::
        st.filter (fun e => e.key ≠ REFRESH_TOKEN_NS ++ sha256hex tok)) ∧
    redisGet (store_refresh_token sha256hex true st tok uid).2
        (get_token_key sha256hex tok) = some (toString uid) ∧
    (create_refresh_token uid now none).payload.exp =
      now + settings.refresh_token_expire_minutes * 60 := by
  refine ⟨rfl, ?_, rfl⟩
  simp [store_refresh_token, redisSetex, redisGet, get_token_key, List.find?]

/-- C9: with the store reachable, `revoke_all_user_tokens user_id`
deletes exactly the N namespace entries whose stored value is
`str(user_id)`, returns N, and leaves every other entry (the M entries
of other users included) untouched. -/
theorem revoke_all_user_tokens_spec (st : RedisStore) (uid : Int) (N M : Nat)
    (hN : N = (st.filter (ownedBy uid)).length)
    (hM : M = (st.filter (fun e => ! ownedBy uid e)).length) :
    revoke_all_user_tokens true st uid =
      (N, st.filter (fun e => ! ownedBy uid e)) ∧
    ((revoke_all_user_tokens true st uid).2).length = M := by
  have h := revokeAllGo_eq uid st
  constructor
  · simp [revoke_all_user_tokens, h, hN]
  · simp [revoke_all_user_tokens, h, hM]

/-- Witness for C9 on a store with N = 2 entries of user 1 and M = 1
entry of user 2. -/
theorem revoke_all_user_tokens_spec_witness :
    revoke_all_user_tokens true stMixed 1 =
      (2, stMixed.filter (fun e => ! ownedBy 1 e)) ∧
    ((revoke_all_user_tokens true stMixed 1).2).length = 1 :=
  revoke_all_user_tokens_spec stMixed 1 2 1 (by decide) (by decide)

/-- C10: a signed, unexpired token with an int-parseable `sub` and no
`"type"` claim is accepted by `decode_access_token` (the missing kind
defaults to `"access"`) but rejected by `decode_refresh_token`, which
requires the kind claim to be explicitly present. -/
theorem missing_kind_claim_defaults (tok : Jwt) (now : Nat) (s : String)
    (uid : Int)
    (hkey : tok.key = settings.jwt_secret_key)
    (halg : tok.alg = settings.jwt_algorithm)
    (hexp : now < tok.payload.exp)
    (hsub : tok.payload.sub = some s)
    (hint : parseInt s = some uid)
    (htyp : tok.payload.typ = none) :
    decode_access_token tok now =
      some ⟨some uid, tok.payload.email, tok.payload.is_admin.getD false,
        some "access"⟩ ∧
    decode_refresh_token tok now = none := by
  constructor
  · simp [decode_access_token, jwtDecode, hkey, halg, hexp, hsub, hint, htyp]
  · simp [decode_refresh_token, jwtDecode, hkey, halg, hexp, hsub, htyp]

/-- Witness for C10 on a concrete kind-less token. -/
theorem missing_kind_claim_defaults_witness :
    decode_access_token tokNoKind 5 = some ⟨some 7, none, false, some "access"⟩ ∧
    decode_refresh_token tokNoKind 5 = none :=
  missing_kind_claim_defaults tokNoKind 5 "7" 7 rfl rfl (by decide) rfl
    (by decide) rfl

/-- C2: the `/refresh` endpoint (store reachable) applies its checks in
order — decode failure → 401 invalid; fingerprint absent from the store
→ 401 revoked; decoded user id unknown → 401; user inactive → 403; and
only when all checks pass is a new access token (and nothing else)
returned. -/
theorem refresh_check_order (sha256hex : Jwt → String) (st : RedisStore)
    (db : List User) (tok : Jwt) (now : Nat) :
    (decode_refresh_token tok now = none →
      (refresh_token sha256hex true st db tok now).1 =
        .httpError 401 "Invalid or expired refresh token") ∧
    (∀ uid, decode_refresh_token tok now = some uid →
      redisExists st (get_token_key sha256hex tok) = 0 →
      (refresh_token sha256hex true st db tok now).1 =
        .httpError 401 "Refresh token has been revoked") ∧
    (∀ uid, decode_refresh_token tok now = some uid →
      redisExists st (get_token_key sha256hex tok) = 1 →
      get_user_by_id db uid = none →
      (refresh_token sha256hex true st db tok now).1 =
        .httpError 401 "User not found") ∧
    (∀ uid u, decode_refresh_token tok now = some uid →
      redisExists st (get_token_key sha256hex tok) = 1 →
      get_user_by_id db uid = some u → u.is_active = false →
      (refresh_token sha256hex true st db tok now).1 =
        .httpError 403 "Account is deactivated") ∧
    (∀ uid u, decode_refresh_token tok now = some uid →
      redisExists st (get_token_key sha256hex tok) = 1 →
      get_user_by_id db uid = some u → u.is_active = true →
      (refresh_token sha256hex true st db tok now).1 =
        .token (create_access_token u.id u.email u.is_admin now none)
          (settings.access_token_expire_minutes * 60)) := by
  refine ⟨?_, ?_, ?_, ?_, ?_⟩
  · intro hd
    simp [refresh_token, hd]
  · intro uid hd hex
    simp [refresh_token, hd, is_refresh_token_valid, hex]
  · intro uid hd hex hu
    simp [refresh_token, hd, is_refresh_token_valid, hex, hu]
  · intro uid u hd hex hu hact
    simp [refresh_token, hd, is_refresh_token_valid, hex, hu, hact]
  · intro uid u hd hex hu hact
    simp [refresh_token, hd, is_refresh_token_valid, hex, hu, hact]

/-- Witness for C2: a registered token of a missing user yields the 401
of the user-lookup check. -/
theorem refresh_check_order_witness :
    (refresh_token sha0 true stOwned [] tok1 10).1 =
      .httpError 401 "User not found" :=
  (refresh_check_order sha0 stOwned [] tok1 10).2.2.1 1 (by decide)
    (by decide) (by decide)

/-- C4: `/refresh` never touches the revocation store — the presented
token's entry is neither deleted nor replaced — and on success the
presented refresh token is still registered afterwards (no rotation). -/
theorem refresh_no_rotation (sha256hex : Jwt → String) (conn : Bool)
    (st : RedisStore) (db : List User) (tok : Jwt) (now : Nat) :
    (refresh_token sha256hex conn st db tok now).2 = st ∧
    (∀ a e, (refresh_token sha256hex conn st db tok now).1 =
        RefreshResult.token a e →
      is_refresh_token_valid sha256hex conn
        ((refresh_token sha256hex conn st db tok now).2) tok = true) := by
  have hframe : (refresh_token sha256hex conn st db tok now).2 = st := by
    simp only [refresh_token]
    cases hd : decode_refresh_token tok now with
    | none => rfl
    | some uid =>
      by_cases hv : is_refresh_token_valid sha256hex conn st tok
      · cases hu : get_user_by_id db uid with
        | none => simp [hv, hu]
        | some u => by_cases hact : u.is_active <;> simp [hv, hu, hact]
      · simp [hv]
  refine ⟨hframe, ?_⟩
  intro a e h
  rw [hframe]
  simp only [refresh_token] at h
  cases hd : decode_refresh_token tok now with
  | none => rw [hd] at h; exact absurd h (by simp)
  | some uid =>
    rw [hd] at h
    by_cases hv : is_refresh_token_valid sha256hex conn st tok
    · exact hv
    · simp [hv] at h

/-- Witness for C4: a successful refresh leaves the token registered. -/
theorem refresh_no_rotation_witness :
    (refresh_token sha0 true stOwned dbActive tok1 10).2 = stOwned ∧
    is_refresh_token_valid sha0 true
      ((refresh_token sha0 true stOwned dbActive tok1 10).2) tok1 = true := by
  have h := refresh_no_rotation sha0 true stOwned dbActive tok1 10
  exact ⟨h.1, h.2 (create_access_token 1 "a@x.com" false 10 none)
    (settings.access_token_expire_minutes * 60) (by decide)⟩

/-- C5: `/logout` revokes the presented refresh token exactly when it
decodes and its subject equals the authenticated user's id; otherwise it
fails with HTTP 400 and the store is untouched (a user cannot revoke
another user's session). -/
theorem logout_owner_only (sha256hex : Jwt → String) (conn : Bool)
    (st : RedisStore) (u : User) (tok : Jwt) (now : Nat) :
    (decode_refresh_token tok now = none →
      logout sha256hex conn st u tok now =
        (.httpError 400 "Invalid refresh token", st)) ∧
    (∀ uid, decode_refresh_token tok now = some uid → uid ≠ u.id →
      logout sha256hex conn st u tok now =
        (.httpError 400 "Invalid refresh token", st)) ∧
    (decode_refresh_token tok now = some u.id →
      logout sha256hex conn st u tok now =
        (.message "Successfully logged out",
          (revoke_refresh_token sha256hex conn st tok).2)) := by
  refine ⟨?_, ?_, ?_⟩
  · intro hd; simp [logout, hd]
  · intro uid hd hne; simp [logout, hd, hne]
  · intro hd; simp [logout, hd]

/-- Witness for C5: user 2 cannot revoke user 1's token (store intact),
while user 1's own logout deletes the entry. -/
theorem logout_owner_only_witness :
    logout sha0 true stOwned ⟨2, "b@x.com", "h", false, true⟩ tok1 10 =
      (.httpError 400 "Invalid refresh token", stOwned) ∧
    logout sha0 true stOwned ⟨1, "a@x.com", "h", false, true⟩ tok1 10 =
      (.message "Successfully logged out",
        (revoke_refresh_token sha0 true stOwned tok1).2) :=
  ⟨(logout_owner_only sha0 true stOwned ⟨2, "b@x.com", "h", false, true⟩
      tok1 10).2.1 1 (by decide) (by decide),
    (logout_owner_only sha0 true stOwned ⟨1, "a@x.com", "h", false, true⟩
      tok1 10).2.2 (by decide)⟩

/-- C8: with the store unreachable, `store_refresh_token` returns
`False`, `revoke_refresh_token` returns `False`,
`revoke_all_user_tokens` returns `0` (none of them can raise — they are
total functions), and `_create_tokens` — hence login — still returns the
freshly minted access and refresh tokens to the client. -/
theorem store_failure_policy (sha256hex : Jwt → String) (st : RedisStore)
    (tok : Jwt) (uid : Int) (u : User) (now : Nat)
    (verify : String → String → Bool) (db : List User)
    (email pw : String) :
    store_refresh_token sha256hex false st tok uid = (false, st) ∧
    revoke_refresh_token sha256hex false st tok = (false, st) ∧
    revoke_all_user_tokens false st uid = (0, st) ∧
    (create_tokens sha256hex false st u now).1 =
      (create_access_token u.id u.email u.is_admin now none,
        create_refresh_token u.id now none) ∧
    (create_tokens sha256hex false st u now).2 = st ∧
    (authenticate_user verify db email pw = .ok u →
      login verify sha256hex false st db email pw now =
        (.success u (create_access_token u.id u.email u.is_admin now none)
          (create_refresh_token u.id now none), st)) := by
  refine ⟨rfl, rfl, rfl, rfl, rfl, ?_⟩
  intro hauth
  simp [login, hauth, create_tokens, store_refresh_token]

/-- Witness for C8: login with an unreachable store still hands out both
tokens. -/
theorem store_failure_policy_witness :
    login verifyAny sha0 false [] dbActive "a@x.com" "pw" 0 =
      (.success ⟨1, "a@x.com", "h", false, true⟩
        (create_access_token 1 "a@x.com" false 0 none)
        (create_refresh_token 1 0 none), []) :=
  (store_failure_policy sha0 [] tok1 1 ⟨1, "a@x.com", "h", false, true⟩ 0
    verifyAny dbActive "a@x.com" "pw").2.2.2.2.2 (by decide)

/-- Counterexample to C1 as stated: (i) with user 1 deactivated, `tok1`
decodes, its fingerprint entry exists and is owned by user 1, yet
refresh fails (403) — so (a) ∧ (b) does not imply usability; (ii) with
the entry owned by user 2 and user 1 active, refresh succeeds although
the entry's owner differs from the token's subject — so usability does
not imply (b). -/
theorem refresh_usable_iff_cex :
    ¬ (refreshSucceeds sha0 true stOwned dbInactive tok1 10 = true ↔
        (decode_refresh_token tok1 10 ≠ none ∧
          specFingerprintOwned sha0 stOwned tok1 10 = true)) ∧
    ¬ (refreshSucceeds sha0 true stWrongOwner dbActive tok1 10 = true ↔
        (decode_refresh_token tok1 10 ≠ none ∧
          specFingerprintOwned sha0 stWrongOwner tok1 10 = true)) := by
  decide

/-- C1 (amended): with the store reachable, a refresh token mints a new
access token if and only if (a) its signature and embedded expiry are
valid (it decodes), (b) its fingerprint key exists in the revocation
store — the code checks existence only, never which user id the entry
stores — and (c) the decoded subject resolves to an existing, active
user. -/
theorem refresh_usable_iff (sha256hex : Jwt → String) (st : RedisStore)
    (db : List User) (tok : Jwt) (now : Nat) :
    refreshSucceeds sha256hex true st db tok now = true ↔
      (∃ uid u, decode_refresh_token tok now = some uid ∧
        redisExists st (get_token_key sha256hex tok) = 1 ∧
        get_user_by_id db uid = some u ∧ u.is_active = true) := by
  constructor
  · intro h
    simp only [refreshSucceeds, refresh_token] at h
    cases hd : decode_refresh_token tok now with
    | none => rw [hd] at h; simp at h
    | some uid =>
      rw [hd] at h
      by_cases hv : is_refresh_token_valid sha256hex true st tok
      · cases hu : get_user_by_id db uid with
        | none => simp [hv, hu] at h
        | some u =>
          by_cases hact : u.is_active
          · refine ⟨uid, u, rfl, ?_, hu, hact⟩
            simpa [is_refresh_token_valid] using hv
          · simp [hv, hu, hact] at h
      · simp [hv] at h
  · rintro ⟨uid, u, hd, hex, hu, hact⟩
    simp [refreshSucceeds, refresh_token, hd, is_refresh_token_valid, hex,
      hu, hact]

/-- Witness for C1 (amended): a decodable, registered token of an
active user does refresh. -/
theorem refresh_usable_iff_witness :
    refreshSucceeds sha0 true stOwned dbActive tok1 10 = true :=
  (refresh_usable_iff sha0 stOwned dbActive tok1 10).mpr
    ⟨1, ⟨1, "a@x.com", "h", false, true⟩, by decide, by decide, by decide,
      rfl⟩

/-- Counterexample to C3 as stated: two failing login attempts — one
against a deactivated account, one against an unknown email — surface
different caller-visible error messages (`detail=str(e)`), so the three
failure causes are distinguishable. -/
theorem login_same_error_cex :
    (login verifyAny sha0 true [] dbInactive "a@x.com" "pw" 0).1 =
      .httpError 401 "Account is deactivated" ∧
    (login verifyAny sha0 true [] dbInactive "b@x.com" "pw" 0).1 =
      .httpError 401 "Invalid email or password" ∧
    ("Account is deactivated" : String) ≠ "Invalid email or password" := by
  decide

/-- C3 (amended): login fails with `AuthenticationError` surfaced as
HTTP 401 whenever the user is missing, the password is wrong, or the
account is inactive; the missing-user and wrong-password causes surface
the identical generic "Invalid email or password" message, but the
inactive-account cause surfaces a distinct "Account is deactivated"
message (same 401 status). -/
theorem login_failure_modes (verify : String → String → Bool)
    (sha256hex : Jwt → String) (conn : Bool) (st : RedisStore)
    (db : List User) (email pw : String) (now : Nat) :
    (get_user_by_email db email = none →
      login verify sha256hex conn st db email pw now =
        (.httpError 401 "Invalid email or password", st)) ∧
    (∀ u, get_user_by_email db email = some u →
      verify pw u.password_hash = false →
      login verify sha256hex conn st db email pw now =
        (.httpError 401 "Invalid email or password", st)) ∧
    (∀ u, get_user_by_email db email = some u →
      verify pw u.password_hash = true → u.is_active = false →
      login verify sha256hex conn st db email pw now =
        (.httpError 401 "Account is deactivated", st)) := by
  refine ⟨?_, ?_, ?_⟩
  · intro h; simp [login, authenticate_user, h]
  · intro u hu hpw; simp [login, authenticate_user, hu, hpw]
  · intro u hu hpw hact; simp [login, authenticate_user, hu, hpw, hact]

/-- Witness for C3 (amended): unknown email gets the generic 401. -/
theorem login_failure_modes_witness :
    login verifyAny sha0 true [] [] "a@x.com" "pw" 0 =
      (.httpError 401 "Invalid email or password", []) :=
  (login_failure_modes verifyAny sha0 true [] [] "a@x.com" "pw" 0).1
    (by decide)

end Auth
